import Mathlib

set_option maxHeartbeats 1000000

/- Shallow embedding of src/main.py (Social Media Downloader API).

   Part 1: the URL classifier.

   YOUTUBE_REGEX is
     ^(?:https?://)?(?:www\.|m\.)?(?:youtube\.com/(?:watch\?v=|embed/|shorts/)|youtu\.be/)([\w-]{11})
   and INSTAGRAM_REGEX is
     ^(?:https?://)?(?:www\.)?instagram\.com/
   Both are used with re.search; since each pattern is anchored with a caret and
   MULTILINE is off, a match can only start at position 0.  Every alternation in
   these patterns consists of literals with pairwise incompatible first
   characters (http cannot begin a host form, www./m. cannot begin a host form,
   and the four host forms are mutually exclusive), so backtracking never
   changes the outcome and the regex is equivalent to the greedy deterministic
   prefix matcher below. -/

/-- Python word characters: in a str pattern \w is Unicode, matching the
underscore and every Unicode alphanumeric.  The model is exact on the code
points up to U+00FF: ASCII [A-Za-z0-9_] plus the Latin-1 alphanumerics, which
are U+00AA, U+00B2, U+00B3, U+00B5, U+00B9, U+00BA, U+00BC-U+00BE and the
letters U+00C0-U+00FF without the two signs U+00D7 and U+00F7.  Code points
above U+00FF (largely word characters in Python whenever they are letters or
digits) are conservatively left out of the model; every theorem below
evaluates the class only on characters at or below U+00FF. -/
def isPyWordChar (c : Char) : Bool :=
  c.isAlphanum || c = '_' ||
  c.val = 0xAA || c.val = 0xB2 || c.val = 0xB3 || c.val = 0xB5 ||
  c.val = 0xB9 || c.val = 0xBA ||
  (0xBC ≤ c.val && c.val ≤ 0xBE) ||
  (0xC0 ≤ c.val && c.val ≤ 0xFF && !(c.val = 0xD7 : Bool) && !(c.val = 0xF7 : Bool))

/-- The character class [\w-] of the capture group. -/
def isYtIdChar (c : Char) : Bool := isPyWordChar c || c = '-'

/-- Strip the literal `p` from the front of `s`; `none` when `s` does not start
with `p`. -/
def dropLit : List Char → List Char → Option (List Char)
  | [], s => some s
  | _ :: _, [] => none
  | p :: ps, c :: cs => if c = p then dropLit ps cs else none

/-- Optional alternation of literals: strip the first alternative that matches,
otherwise leave `s` unchanged (the regex groups are marked with a question
mark, so failing to match is not an error). -/
def dropOpt (alts : List (List Char)) (s : List Char) : List Char :=
  match alts with
  | [] => s
  | p :: ps =>
    match dropLit p s with
    | some r => r
    | none => dropOpt ps s

/-- Mandatory alternation of literals: strip the first alternative that
matches, `none` when none does. -/
def dropFirst (alts : List (List Char)) (s : List Char) : Option (List Char) :=
  match alts with
  | [] => none
  | p :: ps =>
    match dropLit p s with
    | some r => some r
    | none => dropFirst ps s

/-- The capture group ([\w-]{11}): the remainder must begin with 11 id
characters, which are captured. -/
def ytCheckId (s : List Char) : Option (List Char) :=
  if (s.take 11).length = 11 && (s.take 11).all isYtIdChar then some (s.take 11) else none

def ytSchemeForms : List (List Char) :=
  ["https://".data, "http://".data]

def ytSubForms : List (List Char) :=
  ["www.".data, "m.".data]

def ytHostForms : List (List Char) :=
  ["youtube.com/watch?v=".data, "youtube.com/embed/".data,
   "youtube.com/shorts/".data, "youtu.be/".data]

/-- YOUTUBE_REGEX.search: `some id` with the captured group when the string
matches, `none` otherwise. -/
def ytMatchL (s : List Char) : Option (List Char) :=
  match dropFirst ytHostForms (dropOpt ytSubForms (dropOpt ytSchemeForms s)) with
  | some r => ytCheckId r
  | none => none

/-- INSTAGRAM_REGEX.search as a Boolean. -/
def instaMatchL (s : List Char) : Bool :=
  (dropLit "instagram.com/".data (dropOpt ["www.".data] (dropOpt ytSchemeForms s))).isSome

/-- detect_platform from src/main.py. -/
def detect_platform (url : String) : Option String :=
  if (ytMatchL url.data).isSome then some "youtube"
  else if instaMatchL url.data then some "instagram"
  else none

/-- extract_youtube_id from src/main.py. -/
def extract_youtube_id (url : String) : Option String :=
  (ytMatchL url.data).map fun l => (⟨l⟩ : String)

example : detect_platform "https://www.youtube.com/watch?v=dQw4w9WgXcQ" = some "youtube" := by decide
example : extract_youtube_id "https://www.youtube.com/watch?v=dQw4w9WgXcQ" = some "dQw4w9WgXcQ" := by decide
example : detect_platform "https://youtu.be/dQw4w9WgXcQ" = some "youtube" := by decide
example : detect_platform "https://m.youtube.com/shorts/abc-def_123?x=1" = some "youtube" := by decide
example : extract_youtube_id "youtube.com/embed/abcdefghijk" = some "abcdefghijk" := by decide
example : detect_platform "https://youtu.be/abcdefghij" = none := by decide
example : detect_platform "https://www.instagram.com/p/xyz" = some "instagram" := by decide
example : detect_platform "instagram.com/" = some "instagram" := by decide
example : detect_platform "https://instagram.com" = none := by decide
example : detect_platform "https://example.com/video" = none := by decide

/- Part 2: a model of the JSON values the upstream services return, together
   with the Python semantics the handler relies on: truthiness, dict.get,
   str(), lower(), substring membership and string slicing.  str() on nested
   lists and dicts follows the Python repr layout; escaping of special
   characters inside a repr is not reproduced (no claim exercises it). -/

inductive Json where
  | null : Json
  | bool (b : Bool) : Json
  | num (n : Int) : Json
  | str (s : String) : Json
  | arr (xs : List Json) : Json
  | obj (fields : List (String × Json)) : Json

/-- Python truthiness: None, False, 0, empty string, empty list and empty dict
are falsy. -/
def Json.truthy : Json → Bool
  | .null => false
  | .bool b => b
  | .num n => n != 0
  | .str s => s != ""
  | .arr xs => !xs.isEmpty
  | .obj fs => !fs.isEmpty

/-- Python `a or b` on JSON values. -/
def pyOr (a b : Json) : Json := if a.truthy then a else b

/-- Python dict.get(k): the stored value when the key is present (a stored JSON
null is returned as such), None when absent. -/
def objGet (fs : List (String × Json)) (k : String) : Json :=
  match fs with
  | [] => .null
  | (k2, v) :: rest => if k2 = k then v else objGet rest k

/-- Python dict.get(k, d): like objGet but with an explicit default. -/
def objGetD (fs : List (String × Json)) (k : String) (d : Json) : Json :=
  match fs with
  | [] => d
  | (k2, v) :: rest => if k2 = k then v else objGetD rest k d

/-- The name Python reports for the runtime type of a JSON value. -/
def pyTypeName : Json → String
  | .null => "NoneType"
  | .bool _ => "bool"
  | .num _ => "int"
  | .str _ => "str"
  | .arr _ => "list"
  | .obj _ => "dict"

/-- Message of the AttributeError raised when `attr` is looked up on a value
that lacks it (for example calling .get on a list). -/
def noAttrMsg (j : Json) (attr : String) : String :=
  "\x27" ++ pyTypeName j ++ "\x27 object has no attribute \x27" ++ attr ++ "\x27"

/-- Message of the error raised when a for-loop consumes a value: numbers and
booleans raise TypeError; iterating a nonempty string or dict yields strings,
on which the .get of the loop body then raises AttributeError. -/
def iterGetErr : Json → String
  | .str _ => noAttrMsg (.str "") "get"
  | .obj _ => noAttrMsg (.str "") "get"
  | j => "\x27" ++ pyTypeName j ++ "\x27 object is not iterable"

mutual
def pythonRepr : Json → String
  | .null => "None"
  | .bool true => "True"
  | .bool false => "False"
  | .num n => toString n
  | .str s => "\x27" ++ s ++ "\x27"
  | .arr xs => "[" ++ pythonReprSeq xs ++ "]"
  | .obj fs => "\x7b" ++ pythonReprFields fs ++ "\x7d"

def pythonReprSeq : List Json → String
  | [] => ""
  | [x] => pythonRepr x
  | x :: y :: xs => pythonRepr x ++ ", " ++ pythonReprSeq (y :: xs)

def pythonReprFields : List (String × Json) → String
  | [] => ""
  | [(k, v)] => "\x27" ++ k ++ "\x27: " ++ pythonRepr v
  | (k, v) :: y :: xs => "\x27" ++ k ++ "\x27: " ++ pythonRepr v ++ ", " ++ pythonReprFields (y :: xs)
end

/-- Python str(): the string itself for strings, repr for everything else. -/
def pythonStr : Json → String
  | .str s => s
  | j => pythonRepr j

/-- Python `needle in hay` on strings: substring containment. -/
def leadsWith : List Char → List Char → Bool
  | [], _ => true
  | _ :: _, [] => false
  | a :: as, b :: bs => a == b && leadsWith as bs

def hasSubstr (n : List Char) : List Char → Bool
  | [] => n.isEmpty
  | c :: rest => leadsWith n (c :: rest) || hasSubstr n rest

def pyIn (needle hay : String) : Bool := hasSubstr needle.data hay.data

/-- Python s[:n]: the first n characters. -/
def strTake (n : Nat) (s : String) : String := ⟨s.data.take n⟩

/-- Python s.lower(): lowercase each character. -/
def pyLower (s : String) : String := ⟨s.data.map Char.toLower⟩

example : pythonStr (.num 5) = "5" := by decide
example : pythonStr (.bool true) = "True" := by decide
example : pythonStr .null = "None" := by decide
example : pyIn "mp4" "https://x/video.mp4?a=1" = true := by decide
example : pyIn "mp4" "" = false := by decide
example : pyLower (pythonStr (.str "TRUE")) = "true" := by decide
example : pyLower (pythonStr (.bool true)) = "true" := by decide

/- Part 3: the /api/fetch handler.

   Outbound HTTP calls are modelled by a CallResult supplied for each of the
   four upstream services (requests.get either raises, or returns a response
   whose .json() either raises or yields a JSON value).  requests marks a
   response .ok exactly when status_code < 400.  The handler is modelled as a
   pure function of the environment variables, the upstream results and the
   request URL; it also returns the list of upstream services actually called,
   in order.  Pydantic model construction is validated: DownloadOption has a
   required url field of type HttpUrl, so constructing one with a missing or
   invalid url raises a ValidationError inside the enclosing try block
   (modelled by isHttpUrlStr below), and FetchResponse validates title and
   thumbnail as Optional[str], so constructing it at line 157 or line 202 with
   a truthy non-string value drawn from an upstream body raises OUTSIDE every
   try block: FastAPI then answers 500 Internal Server Error (modelled by
   validateResp below).  The code mutates
   title/thumbnail/downloads/info sequentially inside try blocks; the model
   splits each try block into functions for the metadata fields, the download
   entries and the diagnostic, which is faithful because the entries appended
   and fields assigned before an exception persist, and the remainder of the
   block contributes nothing after it. -/

inductive CallResult where
  | exn (msg : String) : CallResult
  | resp (status : Nat) (body : Except String Json) : CallResult

/-- requests.Response.ok: status_code < 400. -/
def respOk (status : Nat) : Bool := status < 400

structure Upstreams where
  oembed : CallResult
  ytstream : CallResult
  mp36 : CallResult
  insta : CallResult

structure Env where
  RAPIDAPI_KEY : Option String
  RAPID_API_KEY : Option String

/-- rapidapi_key = os.getenv("RAPIDAPI_KEY") or os.getenv("RAPID_API_KEY"):
the first variable when it is set and nonempty, otherwise the second. -/
def pyOrEnv (a b : Option String) : Option String :=
  match a with
  | some s => if s = "" then b else some s
  | none => b

/-- Python truthiness of the key (`if rapidapi_key:`). -/
def keyTruthy : Option String → Bool
  | some s => s != ""
  | none => false

structure DownloadOption where
  type : String
  quality : Json
  url : Json
  note : Option String

structure FetchResponse where
  platform : String
  title : Json
  thumbnail : Json
  downloads : List DownloadOption
  info : Option String

inductive FetchResult where
  | ok (resp : FetchResponse) : FetchResult
  | httpError (status : Nat) (detail : String) : FetchResult

def urlChar (c : Char) : Bool :=
  c.isAlphanum || c = '.' || c = '/' || c = '_' || c = '-' ||
  c = '?' || c = '=' || c = '&' || c = '~' || c = '#' || c = '%' || c = '+'

/-- Conservative model of the pydantic HttpUrl check on url fields: a string
with an explicit http or https scheme, followed by a nonempty remainder that
starts with an alphanumeric host character, uses only unreserved URL
characters, and keeps the whole URL within the 2083-character bound both
pydantic lines enforce.  Every such simple URL is accepted by pydantic;
None and every non-string value are always rejected.  Strings of unusual
shape (other schemes, empty or exotic hosts, ports, spaces) are rejected by
the model; the exact pydantic boundary for such strings is version-dependent
and no theorem below evaluates the check on them. -/
def isHttpUrlStr : Json → Bool
  | .str s =>
    (match dropFirst ["https://".data, "http://".data] s.data with
     | some (c :: rs) => c.isAlphanum && (c :: rs).all urlChar && s.data.length ≤ 2083
     | some [] => false
     | none => false)
  | _ => false

/-- Model of the pydantic Optional[str] check on the title, thumbnail and
quality fields: absent (None) or a string.  pydantic v2 rejects every other
value; v1 would coerce plain numbers to strings, a divergence no theorem
below exercises (the counterexamples use list values, rejected by every
version). -/
def isOptStr : Json → Bool
  | .null => true
  | .str _ => true
  | _ => false

/-- Stands for str() of the ValidationError raised when a DownloadOption is
constructed with a missing or invalid url (or a non-string quality label);
the exact text depends on the pydantic version and the offending value, and
no theorem below depends on it. -/
def downloadOptErrMsg : String := "1 validation error for DownloadOption"

/-- The FetchResponse constructions at lines 157 and 202 sit outside every
try block: when title or thumbnail fails the Optional[str] validation the
ValidationError escapes the handler and FastAPI answers 500. -/
def validateResp (r : FetchResponse) : FetchResult :=
  if isOptStr r.title && isOptStr r.thumbnail then .ok r
  else .httpError 500 "Internal Server Error"

/-- The oEmbed metadata attempt (src/main.py lines 89-101): on a 2xx-3xx
response with a JSON object body, title and thumbnail_url are read; every
failure, including a body on which .get would raise, is swallowed by the
bare except and leaves both fields as None. -/
def oembedMeta : CallResult → Json × Json
  | .exn _ => (.null, .null)
  | .resp st body =>
    if respOk st then
      match body with
      | .ok (.obj fs) => (objGet fs "title", objGet fs "thumbnail_url")
      | _ => (.null, .null)
    else (.null, .null)

/-- The inclusion condition of line 127: str(url) contains "mp4" or
str(mimeType) contains "video". -/
def ytKeep (fs : List (String × Json)) : Bool :=
  pyIn "mp4" (pythonStr (objGetD fs "url" (.str ""))) ||
  pyIn "video" (pythonStr (objGetD fs "mimeType" (.str "")))

/-- One format entry of the ytstream response (loop body, lines 125-130):
when the condition of line 127 holds, DownloadOption(type="mp4",
quality=..., url=f.get("url")) is constructed at line 129; pydantic raises
(inside the try block) when the url is missing or not a valid HTTP URL, or
when the quality label is a truthy non-string. -/
def ytEntry? (fs : List (String × Json)) : Except String (Option DownloadOption) :=
  if ytKeep fs then
    if isHttpUrlStr (objGet fs "url") &&
       isOptStr (pyOr (objGet fs "quality") (objGet fs "qualityLabel")) then
      .ok (some ⟨"mp4", pyOr (objGet fs "quality") (objGet fs "qualityLabel"), objGet fs "url", none⟩)
    else .error downloadOptErrMsg
  else .ok none

/-- The loop body including the statement
f_type = f.get("type") or f.get("mimeType", "").split("/")[0] (line 126),
which raises AttributeError when f is not a dict, or when f.get("type") is
falsy and f.get("mimeType", "") is not a string. -/
def ytFormatStep (f : Json) : Except String (Option DownloadOption) :=
  match f with
  | .obj fs =>
    if (objGet fs "type").truthy then ytEntry? fs
    else
      match objGetD fs "mimeType" (.str "") with
      | .str _ => ytEntry? fs
      | v => .error (noAttrMsg v "split")
  | other => .error (noAttrMsg other "get")

/-- The format loop: entries appended before an exception persist, the
exception aborts the rest of the loop. -/
def ytFormatsLoop : List Json → List DownloadOption × Option String
  | [] => ([], none)
  | f :: rest =>
    match ytFormatStep f with
    | .error e => ([], some e)
    | .ok o => (o.toList ++ (ytFormatsLoop rest).1, (ytFormatsLoop rest).2)

/-- title/thumbnail updates of the ytstream try block (lines 122-123): only a
2xx-3xx response with an object body updates them (on any raising body the
assignments either do not run or keep the incoming values, since
`title or j.get(...)` returns title when title is truthy). -/
def ytMeta (res : CallResult) (t th : Json) : Json × Json :=
  match res with
  | .resp st (.ok (.obj fs)) =>
    if respOk st then (pyOr t (objGet fs "title"), pyOr th (objGet fs "thumbnail"))
    else (t, th)
  | _ => (t, th)

/-- Download entries and diagnostic of the ytstream try/except block
(lines 112-134). -/
def ytVidsInfo (res : CallResult) : List DownloadOption × Option String :=
  match res with
  | .exn e => ([], some ("RapidAPI YouTube error: " ++ strTake 120 e))
  | .resp st body =>
    if respOk st then
      match body with
      | .error e => ([], some ("RapidAPI YouTube error: " ++ strTake 120 e))
      | .ok (.obj fs) =>
        match pyOr (objGet fs "formats") (pyOr (objGet fs "formats_list") (.arr [])) with
        | .arr xs =>
          ((ytFormatsLoop xs).1,
           ((ytFormatsLoop xs).2).map fun e => "RapidAPI YouTube error: " ++ strTake 120 e)
        | other => ([], some ("RapidAPI YouTube error: " ++ strTake 120 (iterGetErr other)))
      | .ok other => ([], some ("RapidAPI YouTube error: " ++ strTake 120 (noAttrMsg other "get")))
    else ([], some ("RapidAPI YouTube fetch failed: " ++ toString st))

/-- The youtube-mp36 try/except block (lines 136-153): a truthy link is
wrapped as DownloadOption(type="mp3", quality="128kbps", url=link) at
line 149; pydantic raises inside the try block when the link is not a valid
HTTP URL, which the except at line 152 turns into an MP3 error diagnostic. -/
def ytMp3Section (res : CallResult) : List DownloadOption × Option String :=
  match res with
  | .exn e => ([], some ("MP3 error: " ++ strTake 120 e))
  | .resp st body =>
    if respOk st then
      match body with
      | .error e => ([], some ("MP3 error: " ++ strTake 120 e))
      | .ok (.obj fs) =>
        if (pyOr (objGet fs "link") (objGet fs "url")).truthy then
          if isHttpUrlStr (pyOr (objGet fs "link") (objGet fs "url")) then
            ([⟨"mp3", .str "128kbps", pyOr (objGet fs "link") (objGet fs "url"), none⟩], none)
          else ([], some ("MP3 error: " ++ strTake 120 downloadOptErrMsg))
        else ([], none)
      | .ok other => ([], some ("MP3 error: " ++ strTake 120 (noAttrMsg other "get")))
    else ([], some ("MP3 fetch failed: " ++ toString st))

/-- info accumulation for the mp3 block:
info = (info + "; " if info else "") + msg. -/
def combineInfo (i : Option String) : Option String → Option String
  | none => i
  | some msg =>
    some ((match i with | some s => s ++ "; " | none => "") ++ msg)

/-- The field values of the FetchResponse built by the YouTube branch of
/api/fetch when the RapidAPI key is set; the construction itself, at
line 157, is validated by validateResp at the call site in fetch. -/
def fetchYoutubeKeyed (ups : Upstreams) (t0 th0 : Json) : FetchResponse :=
  ⟨"youtube",
   (ytMeta ups.ytstream t0 th0).1,
   (ytMeta ups.ytstream t0 th0).2,
   (ytVidsInfo ups.ytstream).1 ++ (ytMp3Section ups.mp36).1,
   combineInfo (ytVidsInfo ups.ytstream).2 (ytMp3Section ups.mp36).2⟩

/-- The media classification of one Instagram media entry (line 192): mp4
exactly when "video" occurs in str(type).lower() or str(is_video).lower()
equals "true", image otherwise. -/
def instaIsVideo (fs : List (String × Json)) : Bool :=
  pyIn "video" (pyLower (pythonStr (objGetD fs "type" (.str "")))) ||
  pyLower (pythonStr (objGetD fs "is_video" (.bool false))) == "true"

/-- The Instagram media loop body (lines 188-194): entries without a truthy
link in url/link/video/image are skipped; a non-dict entry raises; a kept
entry is wrapped as DownloadOption(url=link) at line 194, where pydantic
raises (inside the try block) when the link is not a valid HTTP URL or the
quality value is a truthy non-string. -/
def instaMediaStep (m : Json) : Except String (Option DownloadOption) :=
  match m with
  | .obj fs =>
    if (pyOr (objGet fs "url") (pyOr (objGet fs "link") (pyOr (objGet fs "video") (objGet fs "image")))).truthy then
      if isHttpUrlStr (pyOr (objGet fs "url") (pyOr (objGet fs "link") (pyOr (objGet fs "video") (objGet fs "image")))) &&
         isOptStr (pyOr (objGet fs "quality") (objGet fs "resolution")) then
        .ok (some ⟨if instaIsVideo fs then "mp4" else "image",
                   pyOr (objGet fs "quality") (objGet fs "resolution"),
                   pyOr (objGet fs "url") (pyOr (objGet fs "link") (pyOr (objGet fs "video") (objGet fs "image"))),
                   none⟩)
      else .error downloadOptErrMsg
    else .ok none
  | other => .error (noAttrMsg other "get")

def instaLoop : List Json → List DownloadOption × Option String
  | [] => ([], none)
  | m :: rest =>
    match instaMediaStep m with
    | .error e => ([], some e)
    | .ok o => (o.toList ++ (instaLoop rest).1, (instaLoop rest).2)

/-- The field values of the FetchResponse built by the Instagram branch of
/api/fetch when the RapidAPI key is set (lines 165-198); the construction
itself, at line 202, is validated by validateResp at the call site in
fetch. -/
def fetchInstagramKeyed (res : CallResult) : FetchResponse :=
  match res with
  | .exn e => ⟨"instagram", .null, .null, [], some ("RapidAPI Instagram error: " ++ strTake 120 e)⟩
  | .resp st body =>
    if respOk st then
      match body with
      | .error e => ⟨"instagram", .null, .null, [], some ("RapidAPI Instagram error: " ++ strTake 120 e)⟩
      | .ok (.obj fs) =>
        match pyOr (objGet fs "media") (pyOr (objGet fs "result") (pyOr (objGet fs "links") (.arr []))) with
        | .obj mfs =>
          ⟨"instagram",
           pyOr (objGet fs "title") (.str "Instagram Media"),
           (match pyOr (objGet fs "thumbnail") (pyOr (objGet fs "display_url") (objGet fs "thumb")) with
            | .str s => .str s
            | _ => .null),
           (instaLoop [.obj mfs]).1,
           ((instaLoop [.obj mfs]).2).map fun e => "RapidAPI Instagram error: " ++ strTake 120 e⟩
        | .arr xs =>
          ⟨"instagram",
           pyOr (objGet fs "title") (.str "Instagram Media"),
           (match pyOr (objGet fs "thumbnail") (pyOr (objGet fs "display_url") (objGet fs "thumb")) with
            | .str s => .str s
            | _ => .null),
           (instaLoop xs).1,
           ((instaLoop xs).2).map fun e => "RapidAPI Instagram error: " ++ strTake 120 e⟩
        | other =>
          ⟨"instagram",
           pyOr (objGet fs "title") (.str "Instagram Media"),
           (match pyOr (objGet fs "thumbnail") (pyOr (objGet fs "display_url") (objGet fs "thumb")) with
            | .str s => .str s
            | _ => .null),
           [], some ("RapidAPI Instagram error: " ++ strTake 120 (iterGetErr other))⟩
      | .ok other => ⟨"instagram", .null, .null, [], some ("RapidAPI Instagram error: " ++ strTake 120 (noAttrMsg other "get"))⟩
    else ⟨"instagram", .null, .null, [], some ("RapidAPI Instagram fetch failed: " ++ toString st)⟩

/-- The /api/fetch handler (lines 73-202), as a function of the environment,
the upstream call results and the request URL.  The second component lists
the upstream services called, in order. -/
def fetch (env : Env) (ups : Upstreams) (url : String) : FetchResult × List String :=
  match detect_platform url with
  | none => (.httpError 400 "Unsupported or invalid URL. Only YouTube and Instagram are supported.", [])
  | some platform =>
    if platform = "youtube" then
      match extract_youtube_id url with
      | none => (.httpError 400 "Could not parse YouTube video ID.", [])
      | some _vid =>
        if keyTruthy (pyOrEnv env.RAPIDAPI_KEY env.RAPID_API_KEY) then
          (validateResp (fetchYoutubeKeyed ups (oembedMeta ups.oembed).1 (oembedMeta ups.oembed).2),
           ["oembed", "ytstream", "mp36"])
        else
          (validateResp ⟨"youtube", (oembedMeta ups.oembed).1, (oembedMeta ups.oembed).2, [],
                         some "RAPIDAPI_KEY not set. Showing metadata only."⟩,
           ["oembed"])
    else
      if keyTruthy (pyOrEnv env.RAPIDAPI_KEY env.RAPID_API_KEY) then
        (validateResp (fetchInstagramKeyed ups.insta), ["instagram"])
      else
        (validateResp ⟨"instagram", .null, .null, [],
                       some "RAPIDAPI_KEY not set. Unable to generate Instagram download links."⟩,
         [])

/- Part 4: helper lemmas. -/

theorem strDataAppend (a b : String) : (a ++ b).data = a.data ++ b.data := by
  obtain ⟨da⟩ := a
  obtain ⟨db⟩ := b
  rfl

theorem strMkData (s : String) : (⟨s.data⟩ : String) = s := by
  obtain ⟨d⟩ := s
  rfl

theorem ytCheckId_append (il rl : List Char) (hlen : il.length = 11)
    (hall : il.all isYtIdChar = true) : ytCheckId (il ++ rl) = some il := by
  have ht : (il ++ rl).take 11 = il := by
    rw [← hlen]
    exact List.take_left il rl
  simp [ytCheckId, ht, hlen, hall]

theorem ytCheckId_none (t : List Char)
    (h : ¬((t.take 11).length = 11 ∧ (t.take 11).all isYtIdChar = true)) :
    ytCheckId t = none := by
  unfold ytCheckId
  split
  · next hc =>
      rw [Bool.and_eq_true, decide_eq_true_eq] at hc
      exact absurd hc h
  · rfl

/-- After any of the recognized scheme/subdomain/host prefixes, YOUTUBE_REGEX
reduces to the 11-character id check on the remainder. -/
theorem ytMatch_after_forms (scheme sub host : String)
    (hs : scheme ∈ ["", "http://", "https://"])
    (hb : sub ∈ ["", "www.", "m."])
    (hh : host ∈ ["youtube.com/watch?v=", "youtube.com/embed/", "youtube.com/shorts/", "youtu.be/"]) :
    ∀ t : List Char, ytMatchL (scheme.data ++ (sub.data ++ (host.data ++ t))) = ytCheckId t := by
  fin_cases hs <;> fin_cases hb <;> fin_cases hh <;> exact fun t => rfl

def FetchResult.isOk : FetchResult → Bool
  | .ok _ => true
  | .httpError _ _ => false

/-- A link-fetcher call that fails in one of the ways the handler catches:
the request raises (network error or timeout), the response status is not ok
(>= 400), the body fails to parse as JSON, or the parsed body is not a JSON
object (so the first .get on it raises). -/
def upstreamFails : CallResult → Bool
  | .exn _ => true
  | .resp st body =>
    !respOk st ||
      (match body with
       | .error _ => true
       | .ok (.obj _) => false
       | .ok _ => true)

theorem ytMatch_isSome_of_detect (url : String)
    (h : detect_platform url = some "youtube") : (ytMatchL url.data).isSome = true := by
  by_cases hy : (ytMatchL url.data).isSome = true
  · exact hy
  · exfalso
    rw [detect_platform, if_neg hy] at h
    split at h
    · exact absurd (Option.some.inj h) (by decide)
    · exact Option.noConfusion h

theorem extract_some_of_detect (url : String)
    (h : detect_platform url = some "youtube") : ∃ v, extract_youtube_id url = some v := by
  have hy := ytMatch_isSome_of_detect url h
  rw [Option.isSome_iff_exists] at hy
  obtain ⟨l, hl⟩ := hy
  exact ⟨⟨l⟩, by rw [extract_youtube_id, hl]; rfl⟩

theorem ytEntry_mp4 (fs : List (String × Json)) (o : Option DownloadOption)
    (h : ytEntry? fs = .ok o) : ∀ d ∈ o.toList, d.type = "mp4" := by
  intro d hd
  rw [ytEntry?] at h
  split at h
  · split at h
    · rw [← Except.ok.inj h] at hd
      simp at hd
      rw [hd]
    · exact Except.noConfusion h
  · rw [← Except.ok.inj h] at hd
    simp at hd

theorem ytFormatStep_mp4 (f : Json) (o : Option DownloadOption)
    (h : ytFormatStep f = .ok o) : ∀ d ∈ o.toList, d.type = "mp4" := by
  cases f with
  | obj fs =>
    rw [ytFormatStep] at h
    split at h
    · exact ytEntry_mp4 fs o h
    · split at h
      · exact ytEntry_mp4 fs o h
      · exact Except.noConfusion h
  | null => simp [ytFormatStep] at h
  | bool b => simp [ytFormatStep] at h
  | num n => simp [ytFormatStep] at h
  | str s => simp [ytFormatStep] at h
  | arr xs => simp [ytFormatStep] at h

theorem ytFormatsLoop_mp4 (xs : List Json) :
    ∀ d ∈ (ytFormatsLoop xs).1, d.type = "mp4" := by
  induction xs with
  | nil => intro d hd; simp [ytFormatsLoop] at hd
  | cons f rest ih =>
    intro d hd
    rw [ytFormatsLoop] at hd
    cases hstep : ytFormatStep f with
    | error e => rw [hstep] at hd; simp at hd
    | ok o =>
      rw [hstep] at hd
      simp only [List.mem_append] at hd
      cases hd with
      | inl hmem => exact ytFormatStep_mp4 f o hstep d hmem
      | inr hmem => exact ih d hmem

theorem ytVidsInfo_mp4 (res : CallResult) :
    ∀ d ∈ (ytVidsInfo res).1, d.type = "mp4" := by
  intro d hd
  cases res with
  | exn e => simp [ytVidsInfo] at hd
  | resp st body =>
    rw [ytVidsInfo.eq_def] at hd
    dsimp only at hd
    split at hd
    · cases body with
      | error e => simp at hd
      | ok j =>
        cases j with
        | obj fs =>
          simp only at hd
          split at hd
          · exact ytFormatsLoop_mp4 _ d hd
          · simp at hd
        | null => simp at hd
        | bool b => simp at hd
        | num n => simp at hd
        | str s => simp at hd
        | arr xs => simp at hd
    · simp at hd

theorem ytMp3Section_mp3 (res : CallResult) :
    ∀ d ∈ (ytMp3Section res).1, d.type = "mp3" := by
  intro d hd
  cases res with
  | exn e => simp [ytMp3Section] at hd
  | resp st body =>
    rw [ytMp3Section.eq_def] at hd
    dsimp only at hd
    split at hd
    · cases body with
      | error e => simp at hd
      | ok j =>
        cases j with
        | obj fs =>
          simp only at hd
          split at hd
          · split at hd
            · simp at hd
              rw [hd]
            · simp at hd
          · simp at hd
        | null => simp at hd
        | bool b => simp at hd
        | num n => simp at hd
        | str s => simp at hd
        | arr xs => simp at hd
    · simp at hd

theorem ytVidsInfo_fails (res : CallResult) (h : upstreamFails res = true) :
    (ytVidsInfo res).1 = [] ∧ ((ytVidsInfo res).2).isSome = true := by
  cases res with
  | exn e => exact ⟨rfl, rfl⟩
  | resp st body =>
    rw [upstreamFails.eq_def] at h
    dsimp only at h
    rw [ytVidsInfo.eq_def]
    dsimp only
    by_cases hok : respOk st = true
    · rw [if_pos hok]
      rw [hok] at h
      simp only [Bool.not_true, Bool.false_or] at h
      cases body with
      | error e => exact ⟨rfl, rfl⟩
      | ok j =>
        cases j with
        | obj fs => exact Bool.noConfusion h
        | null => exact ⟨rfl, rfl⟩
        | bool b => exact ⟨rfl, rfl⟩
        | num n => exact ⟨rfl, rfl⟩
        | str s => exact ⟨rfl, rfl⟩
        | arr xs => exact ⟨rfl, rfl⟩
    · rw [if_neg hok]
      exact ⟨rfl, rfl⟩

theorem ytMp3Section_fails (res : CallResult) (h : upstreamFails res = true) :
    (ytMp3Section res).1 = [] ∧ ((ytMp3Section res).2).isSome = true := by
  cases res with
  | exn e => exact ⟨rfl, rfl⟩
  | resp st body =>
    rw [upstreamFails.eq_def] at h
    dsimp only at h
    rw [ytMp3Section.eq_def]
    dsimp only
    by_cases hok : respOk st = true
    · rw [if_pos hok]
      rw [hok] at h
      simp only [Bool.not_true, Bool.false_or] at h
      cases body with
      | error e => exact ⟨rfl, rfl⟩
      | ok j =>
        cases j with
        | obj fs => exact Bool.noConfusion h
        | null => exact ⟨rfl, rfl⟩
        | bool b => exact ⟨rfl, rfl⟩
        | num n => exact ⟨rfl, rfl⟩
        | str s => exact ⟨rfl, rfl⟩
        | arr xs => exact ⟨rfl, rfl⟩
    · rw [if_neg hok]
      exact ⟨rfl, rfl⟩

theorem fetchInstagramKeyed_fails (res : CallResult) (h : upstreamFails res = true) :
    (fetchInstagramKeyed res).downloads = [] ∧ ((fetchInstagramKeyed res).info).isSome = true := by
  cases res with
  | exn e => exact ⟨rfl, rfl⟩
  | resp st body =>
    rw [upstreamFails.eq_def] at h
    dsimp only at h
    rw [fetchInstagramKeyed.eq_def]
    dsimp only
    by_cases hok : respOk st = true
    · rw [if_pos hok]
      rw [hok] at h
      simp only [Bool.not_true, Bool.false_or] at h
      cases body with
      | error e => exact ⟨rfl, rfl⟩
      | ok j =>
        cases j with
        | obj fs => exact Bool.noConfusion h
        | null => exact ⟨rfl, rfl⟩
        | bool b => exact ⟨rfl, rfl⟩
        | num n => exact ⟨rfl, rfl⟩
        | str s => exact ⟨rfl, rfl⟩
        | arr xs => exact ⟨rfl, rfl⟩
    · rw [if_neg hok]
      exact ⟨rfl, rfl⟩

theorem oembedMeta_fails (res : CallResult) (h : upstreamFails res = true) :
    oembedMeta res = (.null, .null) := by
  cases res with
  | exn e => rfl
  | resp st body =>
    rw [upstreamFails.eq_def] at h
    dsimp only at h
    rw [oembedMeta.eq_def]
    dsimp only
    by_cases hok : respOk st = true
    · rw [if_pos hok]
      rw [hok] at h
      simp only [Bool.not_true, Bool.false_or] at h
      cases body with
      | error e => rfl
      | ok j =>
        cases j with
        | obj fs => exact Bool.noConfusion h
        | null => rfl
        | bool b => rfl
        | num n => rfl
        | str s => rfl
        | arr xs => rfl
    · rw [if_neg hok]

theorem fetch_youtube_keyed (env : Env) (ups : Upstreams) (url : String)
    (h : detect_platform url = some "youtube")
    (hk : keyTruthy (pyOrEnv env.RAPIDAPI_KEY env.RAPID_API_KEY) = true) :
    fetch env ups url =
      (validateResp (fetchYoutubeKeyed ups (oembedMeta ups.oembed).1 (oembedMeta ups.oembed).2),
       ["oembed", "ytstream", "mp36"]) := by
  obtain ⟨v, hv⟩ := extract_some_of_detect url h
  rw [fetch.eq_def, h]
  dsimp only
  rw [if_pos rfl, hv]
  dsimp only
  rw [if_pos hk]

theorem fetch_youtube_nokey (env : Env) (ups : Upstreams) (url : String)
    (h : detect_platform url = some "youtube")
    (hk : keyTruthy (pyOrEnv env.RAPIDAPI_KEY env.RAPID_API_KEY) = false) :
    fetch env ups url =
      (validateResp ⟨"youtube", (oembedMeta ups.oembed).1, (oembedMeta ups.oembed).2, [],
                     some "RAPIDAPI_KEY not set. Showing metadata only."⟩,
       ["oembed"]) := by
  obtain ⟨v, hv⟩ := extract_some_of_detect url h
  rw [fetch.eq_def, h]
  dsimp only
  rw [if_pos rfl, hv]
  dsimp only
  rw [if_neg (by rw [hk]; exact Bool.noConfusion)]

theorem fetch_instagram_keyed (env : Env) (ups : Upstreams) (url : String)
    (h : detect_platform url = some "instagram")
    (hk : keyTruthy (pyOrEnv env.RAPIDAPI_KEY env.RAPID_API_KEY) = true) :
    fetch env ups url = (validateResp (fetchInstagramKeyed ups.insta), ["instagram"]) := by
  rw [fetch.eq_def, h]
  dsimp only
  rw [if_neg (by decide), if_pos hk]

theorem validateResp_ok (r : FetchResponse) (h1 : isOptStr r.title = true)
    (h2 : isOptStr r.thumbnail = true) : validateResp r = .ok r := by
  unfold validateResp
  rw [h1, h2]
  rfl

theorem validateResp_cases (r : FetchResponse) :
    (validateResp r).isOk = true ∨ validateResp r = .httpError 500 "Internal Server Error" := by
  unfold validateResp
  split
  · exact Or.inl rfl
  · exact Or.inr rfl

theorem validateResp_ne_parse (r : FetchResponse) :
    validateResp r ≠ FetchResult.httpError 400 "Could not parse YouTube video ID." := by
  unfold validateResp
  split
  · exact fun hcon => FetchResult.noConfusion hcon
  · intro hcon
    injection hcon with h1 h2
    exact absurd h1 (by decide)

/- Part 5: the claims. -/

/-- Claim C1 counterexample: Python compiles YOUTUBE_REGEX on a str, so \w
is Unicode and wider than [A-Za-z0-9_]: the id abcdéfghijk is 11 word
characters although its é lies outside the claimed class, the URL matches,
and the id is extracted - so the claim that strings whose id segment is not
11 characters from [A-Za-z0-9_-] do not match is false of the program. -/
theorem C1_cex :
    extract_youtube_id "youtube.com/watch?v=abcdéfghijk" = some "abcdéfghijk" ∧
    detect_platform "youtube.com/watch?v=abcdéfghijk" = some "youtube" ∧
    "abcdéfghijk".data.length = 11 ∧
    "abcdéfghijk".data.all (fun c => c.isAlphanum || c = '_' || c = '-') = false := by
  refine ⟨rfl, rfl, rfl, ?_⟩
  decide

/-- Claim C1 as amended: every URL built from an optional http/https scheme,
an optional www. or m. subdomain, one of the four YouTube host forms and an
11-character id of word characters or hyphen - a class that contains
[A-Za-z0-9_-] but also every other Unicode word character - followed by
anything, is classified as youtube with extract_youtube_id returning exactly
that id segment; and an ASCII tail whose first characters are not 11
characters of [A-Za-z0-9_-] does not match. -/
theorem C1_youtube_id (scheme sub host id rest : String)
    (hs : scheme ∈ ["", "http://", "https://"])
    (hb : sub ∈ ["", "www.", "m."])
    (hh : host ∈ ["youtube.com/watch?v=", "youtube.com/embed/", "youtube.com/shorts/", "youtu.be/"])
    (hlen : id.data.length = 11)
    (hall : id.data.all isYtIdChar = true) :
    extract_youtube_id (scheme ++ (sub ++ (host ++ (id ++ rest)))) = some id ∧
    detect_platform (scheme ++ (sub ++ (host ++ (id ++ rest)))) = some "youtube" ∧
    ∀ tail : String,
      tail.data.all (fun c => c.val < 128) = true →
      ¬((tail.data.take 11).length = 11 ∧ (tail.data.take 11).all isYtIdChar = true) →
      extract_youtube_id (scheme ++ (sub ++ (host ++ tail))) = none := by
  have hred := ytMatch_after_forms scheme sub host hs hb hh
  have hd1 : (scheme ++ (sub ++ (host ++ (id ++ rest)))).data
      = scheme.data ++ (sub.data ++ (host.data ++ (id.data ++ rest.data))) := by
    simp only [strDataAppend]
  refine ⟨?_, ?_, ?_⟩
  · rw [extract_youtube_id, hd1, hred, ytCheckId_append _ _ hlen hall]
    simp [strMkData]
  · rw [detect_platform, hd1, hred, ytCheckId_append _ _ hlen hall]
    rfl
  · intro tail _hascii hne
    have hd2 : (scheme ++ (sub ++ (host ++ tail))).data
        = scheme.data ++ (sub.data ++ (host.data ++ tail.data)) := by
      simp only [strDataAppend]
    rw [extract_youtube_id, hd2, hred, ytCheckId_none _ hne]
    rfl

/-- Witness for C1 at concrete inputs. -/
theorem C1_youtube_id_witness :
    extract_youtube_id ("https://" ++ ("www." ++ ("youtube.com/watch?v=" ++ ("dQw4w9WgXcQ" ++ "&t=42")))) = some "dQw4w9WgXcQ" ∧
    detect_platform ("https://" ++ ("www." ++ ("youtube.com/watch?v=" ++ ("dQw4w9WgXcQ" ++ "&t=42")))) = some "youtube" ∧
    extract_youtube_id ("https://" ++ ("www." ++ ("youtube.com/watch?v=" ++ "shortid"))) = none := by
  have h := C1_youtube_id "https://" "www." "youtube.com/watch?v=" "dQw4w9WgXcQ" "&t=42"
    (by decide) (by decide) (by decide) (by decide) (by decide)
  exact ⟨h.1, h.2.1, h.2.2 "shortid" (by decide) (by decide)⟩

/-- Claim C2: every URL on instagram.com, with optional scheme and optional
www. prefix and any path, is classified as instagram. -/
theorem C2_instagram (scheme sub path : String)
    (hs : scheme ∈ ["", "http://", "https://"])
    (hb : sub ∈ ["", "www."]) :
    detect_platform (scheme ++ (sub ++ ("instagram.com/" ++ path))) = some "instagram" := by
  obtain ⟨pl⟩ := path
  fin_cases hs <;> fin_cases hb <;> rfl

/-- Witness for C2 at a concrete URL. -/
theorem C2_instagram_witness :
    detect_platform ("https://" ++ ("www." ++ ("instagram.com/" ++ "reel/abc123/"))) = some "instagram" :=
  C2_instagram "https://" "www." "reel/abc123/" (by decide) (by decide)

/-- Claim C3: when no platform is detected, /api/fetch answers 400 with a
descriptive message and makes no outbound call (empty call trace). -/
theorem C3_unsupported_400 (url : String) (env : Env) (ups : Upstreams)
    (h : detect_platform url = none) :
    fetch env ups url =
      (.httpError 400 "Unsupported or invalid URL. Only YouTube and Instagram are supported.", []) := by
  rw [fetch.eq_def, h]

/-- Witness for C3 at a concrete unrelated URL. -/
theorem C3_unsupported_400_witness :
    fetch ⟨none, none⟩ ⟨.exn "x", .exn "x", .exn "x", .exn "x"⟩ "https://example.com/video" =
      (.httpError 400 "Unsupported or invalid URL. Only YouTube and Instagram are supported.", []) :=
  C3_unsupported_400 "https://example.com/video" ⟨none, none⟩
    ⟨.exn "x", .exn "x", .exn "x", .exn "x"⟩ (by decide)

/-- Claim C10: whenever detect_platform classifies a URL as youtube,
extract_youtube_id succeeds (both run YOUTUBE_REGEX), so the 400 branch
"Could not parse YouTube video ID." of /api/fetch is unreachable. -/
theorem C10_parse_unreachable (url : String)
    (h : detect_platform url = some "youtube") :
    (extract_youtube_id url).isSome = true ∧
    ∀ (env : Env) (ups : Upstreams),
      (fetch env ups url).1 ≠ FetchResult.httpError 400 "Could not parse YouTube video ID." := by
  obtain ⟨v, hv⟩ := extract_some_of_detect url h
  constructor
  · rw [hv]
    rfl
  · intro env ups
    cases hk : keyTruthy (pyOrEnv env.RAPIDAPI_KEY env.RAPID_API_KEY) with
    | true =>
      rw [fetch_youtube_keyed env ups url h hk]
      exact validateResp_ne_parse _
    | false =>
      rw [fetch_youtube_nokey env ups url h hk]
      exact validateResp_ne_parse _

/-- Witness for C10 at a concrete YouTube URL. -/
theorem C10_parse_unreachable_witness :
    (extract_youtube_id "https://youtu.be/dQw4w9WgXcQ").isSome = true :=
  (C10_parse_unreachable "https://youtu.be/dQw4w9WgXcQ" (by decide)).1

/-- Claim C5 counterexample: the FetchResponse construction of line 157 sits
outside every try block, so with no credential set but an oEmbed body whose
title is a list, the Optional[str] validation raises uncaught and the
request fails with 500 instead of the claimed 200 (after the one oembed
call). -/
theorem C5_cex :
    fetch ⟨none, none⟩
      ⟨.resp 200 (.ok (.obj [("title", .arr [.str "x"])])), .exn "x", .exn "x", .exn "x"⟩
      "https://youtu.be/dQw4w9WgXcQ" =
    (.httpError 500 "Internal Server Error", ["oembed"]) := rfl

/-- Claim C5 as amended: with neither credential environment variable set, a
URL classified as youtube yields 200 with empty downloads and the
credential-unset info message, provided the title and thumbnail_url the
oEmbed body supplies are absent or strings (as the oEmbed schema
guarantees); title and thumbnail come from that public lookup, and only the
oembed service is called (no credentialed outbound call).  When the oEmbed
body carries a non-string title or thumbnail, the response construction at
line 157 raises outside every try and the request fails with 500. -/
theorem C5_no_credential (url : String) (env : Env) (ups : Upstreams)
    (h : detect_platform url = some "youtube")
    (h1 : env.RAPIDAPI_KEY = none) (h2 : env.RAPID_API_KEY = none)
    (ht : isOptStr (oembedMeta ups.oembed).1 = true)
    (hth : isOptStr (oembedMeta ups.oembed).2 = true) :
    fetch env ups url =
      (.ok ⟨"youtube", (oembedMeta ups.oembed).1, (oembedMeta ups.oembed).2, [],
            some "RAPIDAPI_KEY not set. Showing metadata only."⟩,
       ["oembed"]) := by
  rw [fetch_youtube_nokey env ups url h (by rw [h1, h2]; rfl)]
  rw [validateResp_ok ⟨"youtube", (oembedMeta ups.oembed).1, (oembedMeta ups.oembed).2, [],
        some "RAPIDAPI_KEY not set. Showing metadata only."⟩ ht hth]

/-- Witness for the amended C5: oEmbed succeeds with string fields, no key
is set. -/
theorem C5_no_credential_witness :
    fetch ⟨none, none⟩
      ⟨.resp 200 (.ok (.obj [("title", .str "T"), ("thumbnail_url", .str "https://i.ytimg.com/t.jpg")])),
       .exn "x", .exn "x", .exn "x"⟩
      "https://youtu.be/dQw4w9WgXcQ" =
    (.ok ⟨"youtube", .str "T", .str "https://i.ytimg.com/t.jpg", [],
          some "RAPIDAPI_KEY not set. Showing metadata only."⟩,
     ["oembed"]) := by
  rw [C5_no_credential "https://youtu.be/dQw4w9WgXcQ" ⟨none, none⟩
      ⟨.resp 200 (.ok (.obj [("title", .str "T"), ("thumbnail_url", .str "https://i.ytimg.com/t.jpg")])),
       .exn "x", .exn "x", .exn "x"⟩
      (by decide) rfl rfl rfl rfl]
  rfl

/-- Claim C6: with a credential configured, every response the handler
produces carries the video-service entries (all of type mp4) followed by the
audio-service entries (all of type mp3); and in the scenario where the video
upstream yields one qualifying format and the audio upstream yields a link,
downloads is exactly one mp4 entry then one mp3 entry and info is unset. -/
theorem C6_download_order :
    (∀ (url : String) (env : Env) (ups : Upstreams),
        detect_platform url = some "youtube" →
        keyTruthy (pyOrEnv env.RAPIDAPI_KEY env.RAPID_API_KEY) = true →
        (fetch env ups url).1 =
          validateResp (fetchYoutubeKeyed ups (oembedMeta ups.oembed).1 (oembedMeta ups.oembed).2) ∧
        (fetchYoutubeKeyed ups (oembedMeta ups.oembed).1 (oembedMeta ups.oembed).2).downloads =
          (ytVidsInfo ups.ytstream).1 ++ (ytMp3Section ups.mp36).1 ∧
        (∀ d ∈ (ytVidsInfo ups.ytstream).1, d.type = "mp4") ∧
        (∀ d ∈ (ytMp3Section ups.mp36).1, d.type = "mp3")) ∧
    fetch ⟨some "k", none⟩
      ⟨.exn "boom",
       .resp 200 (.ok (.obj [("formats",
         .arr [.obj [("url", .str "https://cdn.example.com/v.mp4"), ("quality", .str "720p")]])])),
       .resp 200 (.ok (.obj [("link", .str "https://cdn.example.com/a.mp3")])),
       .exn "x"⟩
      "https://youtu.be/dQw4w9WgXcQ" =
    (.ok ⟨"youtube", .null, .null,
          [⟨"mp4", .str "720p", .str "https://cdn.example.com/v.mp4", none⟩,
           ⟨"mp3", .str "128kbps", .str "https://cdn.example.com/a.mp3", none⟩], none⟩,
     ["oembed", "ytstream", "mp36"]) := by
  constructor
  · intro url env ups h hk
    refine ⟨?_, rfl, ytVidsInfo_mp4 ups.ytstream, ytMp3Section_mp3 ups.mp36⟩
    rw [fetch_youtube_keyed env ups url h hk]
  · rfl

/-- Witness for C6 at concrete inputs. -/
theorem C6_download_order_witness :
    (fetch ⟨some "k", none⟩ ⟨.exn "a", .exn "b", .exn "c", .exn "d"⟩ "https://youtu.be/dQw4w9WgXcQ").1 =
      validateResp (fetchYoutubeKeyed ⟨.exn "a", .exn "b", .exn "c", .exn "d"⟩
        (oembedMeta (.exn "a")).1 (oembedMeta (.exn "a")).2) :=
  (C6_download_order.1 "https://youtu.be/dQw4w9WgXcQ" ⟨some "k", none⟩
    ⟨.exn "a", .exn "b", .exn "c", .exn "d"⟩ (by decide) (by decide)).1

/-- Claim C4 counterexample: requests counts every status below 400 as ok, so
an upstream answering with the non-2xx status 301 and a well-formed body is
not treated as a failure: its format entry is kept in downloads and no
diagnostic is recorded in info, contradicting the claim that an upstream
returning a non-2xx status contributes no download entries and is recorded
as a diagnostic.  Moreover the response is not always 200: an oEmbed body
whose title is a list makes the FetchResponse construction of line 157 raise
outside every try block, and the request fails with 500. -/
theorem C4_cex :
    fetch ⟨some "k", none⟩
      ⟨.exn "x",
       .resp 301 (.ok (.obj [("formats",
         .arr [.obj [("url", .str "https://cdn.example.com/v.mp4")]])])),
       .resp 200 (.ok (.obj [])),
       .exn "x"⟩
      "https://youtu.be/dQw4w9WgXcQ" =
    (.ok ⟨"youtube", .null, .null,
          [⟨"mp4", .null, .str "https://cdn.example.com/v.mp4", none⟩], none⟩,
     ["oembed", "ytstream", "mp36"]) ∧
    respOk 301 = true ∧
    fetch ⟨some "k", none⟩
      ⟨.resp 200 (.ok (.obj [("title", .arr [.str "x"])])),
       .resp 500 (.ok (.obj [])),
       .resp 500 (.ok (.obj [])),
       .exn "x"⟩
      "https://youtu.be/dQw4w9WgXcQ" =
    (.httpError 500 "Internal Server Error", ["oembed", "ytstream", "mp36"]) := ⟨rfl, rfl, rfl⟩

/-- Claim C4 as amended: once a platform is recognized the handler answers
200 whatever the upstreams do, except that a truthy non-string title or
thumbnail drawn from an upstream body makes the response construction of
line 157 or 202 raise outside every try block, failing the request with 500;
a link-fetcher call that fails in a way the code catches (exception/timeout,
non-ok status of 400 or above, unparsable JSON, or a non-object body)
contributes no download entries and records a diagnostic in info, a failing
metadata call is silently ignored, and the downloads list is always the
video-service entries followed by the audio-service entries, each depending
only on its own upstream; when the selected metadata fields are absent or
strings the response is 200. -/
theorem C4_errors_isolated :
    (∀ (url : String) (env : Env) (ups : Upstreams),
        detect_platform url ≠ none →
        (fetch env ups url).1.isOk = true ∨
        (fetch env ups url).1 = .httpError 500 "Internal Server Error") ∧
    (∀ res : CallResult, upstreamFails res = true →
        (ytVidsInfo res).1 = [] ∧ ((ytVidsInfo res).2).isSome = true ∧
        (ytMp3Section res).1 = [] ∧ ((ytMp3Section res).2).isSome = true ∧
        (fetchInstagramKeyed res).downloads = [] ∧
        ((fetchInstagramKeyed res).info).isSome = true ∧
        oembedMeta res = (.null, .null)) ∧
    (∀ (url : String) (env : Env) (ups : Upstreams),
        detect_platform url = some "youtube" →
        keyTruthy (pyOrEnv env.RAPIDAPI_KEY env.RAPID_API_KEY) = true →
        (fetch env ups url).1 =
          validateResp ⟨"youtube",
            (ytMeta ups.ytstream (oembedMeta ups.oembed).1 (oembedMeta ups.oembed).2).1,
            (ytMeta ups.ytstream (oembedMeta ups.oembed).1 (oembedMeta ups.oembed).2).2,
            (ytVidsInfo ups.ytstream).1 ++ (ytMp3Section ups.mp36).1,
            combineInfo (ytVidsInfo ups.ytstream).2 (ytMp3Section ups.mp36).2⟩) ∧
    (∀ (url : String) (env : Env) (ups : Upstreams),
        detect_platform url = some "instagram" →
        keyTruthy (pyOrEnv env.RAPIDAPI_KEY env.RAPID_API_KEY) = true →
        (fetch env ups url).1 = validateResp (fetchInstagramKeyed ups.insta)) ∧
    (∀ r : FetchResponse, isOptStr r.title = true → isOptStr r.thumbnail = true →
        validateResp r = .ok r) := by
  refine ⟨?_, ?_, ?_, ?_, ?_⟩
  · intro url env ups h
    cases hd : detect_platform url with
    | none => exact absurd hd h
    | some p =>
      by_cases hp : p = "youtube"
      · subst hp
        cases hk : keyTruthy (pyOrEnv env.RAPIDAPI_KEY env.RAPID_API_KEY) with
        | true =>
          rw [fetch_youtube_keyed env ups url hd hk]
          exact validateResp_cases _
        | false =>
          rw [fetch_youtube_nokey env ups url hd hk]
          exact validateResp_cases _
      · rw [fetch.eq_def, hd]
        dsimp only
        rw [if_neg hp]
        cases hk : keyTruthy (pyOrEnv env.RAPIDAPI_KEY env.RAPID_API_KEY) with
        | true => exact validateResp_cases (fetchInstagramKeyed ups.insta)
        | false =>
          exact validateResp_cases ⟨"instagram", Json.null, Json.null, [],
            some "RAPIDAPI_KEY not set. Unable to generate Instagram download links."⟩
  · intro res h
    exact ⟨(ytVidsInfo_fails res h).1, (ytVidsInfo_fails res h).2,
           (ytMp3Section_fails res h).1, (ytMp3Section_fails res h).2,
           (fetchInstagramKeyed_fails res h).1, (fetchInstagramKeyed_fails res h).2,
           oembedMeta_fails res h⟩
  · intro url env ups h hk
    rw [fetch_youtube_keyed env ups url h hk]
    rfl
  · intro url env ups h hk
    rw [fetch_instagram_keyed env ups url h hk]
  · intro r h1 h2
    exact validateResp_ok r h1 h2

/-- Witness for the amended C4. -/
theorem C4_errors_isolated_witness :
    ((fetch ⟨none, none⟩ ⟨.exn "x", .exn "x", .exn "x", .exn "x"⟩ "https://instagram.com/p/1").1.isOk = true ∨
     (fetch ⟨none, none⟩ ⟨.exn "x", .exn "x", .exn "x", .exn "x"⟩ "https://instagram.com/p/1").1 =
       .httpError 500 "Internal Server Error") ∧
    (ytVidsInfo (.resp 500 (.ok (.obj [])))).1 = [] :=
  ⟨C4_errors_isolated.1 "https://instagram.com/p/1" ⟨none, none⟩
      ⟨.exn "x", .exn "x", .exn "x", .exn "x"⟩ (by decide),
   (C4_errors_isolated.2.1 (.resp 500 (.ok (.obj []))) rfl).1⟩

/-- Claim C9 counterexample: only the exception text is cut to 120
characters; the fixed prefix "RapidAPI YouTube error: " (24 characters) is
then prepended, so with a 130-character exception message the info field has
144 characters, exceeding the claimed 120-character bound. -/
theorem C9_cex :
    (match (fetch ⟨some "k", none⟩
        ⟨.exn "x", .exn (⟨List.replicate 130 'a'⟩ : String), .resp 200 (.ok (.obj [])), .exn "x"⟩
        "https://youtu.be/dQw4w9WgXcQ").1 with
     | .ok r => (r.info.getD "").length
     | .httpError _ _ => 0) = 144 ∧ 120 < 144 := ⟨rfl, by decide⟩

/-- Claim C9 as amended: each diagnostic embeds at most the first 120
characters of the exception text; the info field adds a fixed prefix per
diagnostic and may join two diagnostics with "; ", so info itself can exceed
120 characters. -/
theorem C9_truncation (e : String) :
    ytVidsInfo (.exn e) = ([], some ("RapidAPI YouTube error: " ++ strTake 120 e)) ∧
    ytMp3Section (.exn e) = ([], some ("MP3 error: " ++ strTake 120 e)) ∧
    (fetchInstagramKeyed (.exn e)).info = some ("RapidAPI Instagram error: " ++ strTake 120 e) ∧
    (strTake 120 e).length ≤ 120 := by
  refine ⟨rfl, rfl, rfl, ?_⟩
  show (e.data.take 120).length ≤ 120
  exact List.length_take_le 120 e.data
